import Mathlib

/-!
Verification of the attendance classification and analytics engine
(`src/app.py`) against its natural-language specification.

The Python source is shallowly embedded: pandas rows become Lean
structures, cell values that may be missing or malformed become sum
types, numeric cells become rationals, and every `try/except` block
becomes an `Option` computation whose `none` branch is the caught
exception.  Dates are modelled as already-normalised opaque date keys
(the claims under study never depend on date-string parsing details),
timestamps are modelled to microsecond precision, which is the precision
`Timestamp.replace(..., microsecond=0)` manipulates, and pandas string
ordering is modelled by code-point lexicographic comparison.  Because
the library sort behind `sort_values` is unstable, general theorems
about the ranking are quantified over every reordering the sort may
return, not over the executable stand-in's choice.
-/

namespace AttendanceApp

open scoped List

/-- A parsed timestamp, to microsecond precision (the precision that
`start_time.replace(hour=9, minute=15, second=0, microsecond=0)`
manipulates in `classify_attendance`). -/
structure Timestamp where
  year : Nat
  month : Nat
  day : Nat
  hour : Nat
  minute : Nat
  second : Nat
  micro : Nat
deriving DecidableEq

/-- The comparison-relevant fields of a timestamp, most significant first. -/
def Timestamp.fields (t : Timestamp) : List Nat :=
  [t.year, t.month, t.day, t.hour, t.minute, t.second, t.micro]

/-- Lexicographic `≤` on equal-length lists of naturals. -/
def lexLeNat : List Nat → List Nat → Bool
  | [], _ => true
  | _ :: _, [] => false
  | a :: as, b :: bs => if a < b then true else if b < a then false else lexLeNat as bs

/-- Chronological `<=` on timestamps (`start_time <= cutoff_time`). -/
def timeLe (a b : Timestamp) : Bool := lexLeNat a.fields b.fields

/-- Source line `cutoff_time = start_time.replace(hour=9, minute=15, second=0,
microsecond=0)`: same calendar day, time-of-day forced to 09:15:00. -/
def cutoffOf (t : Timestamp) : Timestamp :=
  { t with hour := 9, minute := 15, second := 0, micro := 0 }

/-- A raw `Start Day Time` cell: `pd.to_datetime` either yields a
timestamp or raises (the raise is caught by the classifier). -/
inductive TimeCell
  | valid (t : Timestamp)
  | invalid
deriving DecidableEq

/-- A raw `Start DiffIn Meters` cell: a numeric value, an arbitrary
string, or a missing value (`NaN`). -/
inductive MeterCell
  | mnum (q : ℚ)
  | mstr (s : String)
  | mnone
deriving DecidableEq

/-- Numeric value of a list of decimal digit characters. -/
def digitsToNat (l : List Char) : Nat :=
  l.foldl (fun n c => n * 10 + (c.toNat - 48)) 0

/-- `l` consists of decimal digits only. -/
def allDigits (l : List Char) : Bool := l.all (fun c => c.isDigit)

/-- Python `float(s)` on a string, modelled for plain decimal literals
(optional surrounding whitespace, optional sign, integer part, optional
fractional part); anything else fails, standing in for the `ValueError`
branch of the source. -/
def floatOfString (s : String) : Option ℚ :=
  let l := (s.toList.dropWhile (fun c => c.isWhitespace)).reverse.dropWhile
    (fun c => c.isWhitespace) |>.reverse
  let signed : ℚ × List Char :=
    match l with
    | '-' :: r => (-1, r)
    | '+' :: r => (1, r)
    | _ => (1, l)
  let body := signed.2
  let ip := body.takeWhile (fun c => c ≠ '.')
  let rest := body.dropWhile (fun c => c ≠ '.')
  match rest with
  | [] => if allDigits ip && !ip.isEmpty then some (signed.1 * digitsToNat ip) else none
  | _ :: fp =>
    if fp.all (fun c => c ≠ '.') && allDigits ip && allDigits fp
        && !(ip.isEmpty && fp.isEmpty) then
      some (signed.1 * ((digitsToNat ip : ℚ) + (digitsToNat fp : ℚ) / (10 ^ fp.length)))
    else none

/-- Meter resolution from the source: the string sentinel
`"Other Location"` becomes `float('inf')`, any other string goes through
`float(...)` with failures also becoming `float('inf')`, a `NaN` cell
compares false against every threshold.  The infinite sentinel is
modelled as `none`; it can never satisfy a `< 200` test. -/
def resolveMeter : MeterCell → Option ℚ
  | .mnum q => some q
  | .mstr s => if s = "Other Location" then none else floatOfString s
  | .mnone => none

/-- The `start_meter_value < 200` test of the source, false for the
infinite sentinel. -/
def meterBelow200 (mc : MeterCell) : Bool :=
  match resolveMeter mc with
  | some q => decide (q < 200)
  | none => false

/-- Source line `str(row[...]).lower() if pd.notna(row[...]) else ""`:
a missing (`NaN`) reason cell becomes the empty string, a present one is
lower-cased. -/
def reasonText : Option String → String
  | some s => String.mk (s.toList.map Char.toLower)
  | none => ""

/-- The substring test `"outstation" in reason` (the reason has already
been lower-cased by `reasonText`). -/
def containsOutstation (s : String) : Bool :=
  decide ("outstation".toList <:+: s.toList)

/-- Source line `is_outstation = "outstation" in reason_start or
"outstation" in reason_end`. -/
def isOutstation (rs re : Option String) : Bool :=
  containsOutstation (reasonText rs) || containsOutstation (reasonText re)

/-- One raw input row as `classify_attendance` sees it.  The outer
`Option` on each field is column presence: accessing a missing column
raises `KeyError`, which the classifier's `except` catches. -/
structure RawRow where
  userCode : Option String
  userName : Option String
  attendanceDate : Option String
  startDayTime : Option TimeCell
  startDiffMeters : Option MeterCell
  reasonStart : Option (Option String)
  reasonEnd : Option (Option String)
deriving DecidableEq

/-- The body of the `try` block of `classify_attendance`; `none` is a
raised-and-caught exception (missing column, unparsable timestamp). -/
def classifyCore (r : RawRow) : Option String :=
  match r.startDayTime with
  | none => none
  | some .invalid => none
  | some (.valid t) =>
    match r.startDiffMeters with
    | none => none
    | some mc =>
      match r.reasonStart with
      | none => none
      | some rs =>
        match r.reasonEnd with
        | none => none
        | some re =>
          if timeLe t (cutoffOf t) && meterBelow200 mc then
            if isOutstation rs re then some "outstation_present" else some "present"
          else
            if isOutstation rs re then some "outstation_late" else some "late"

/-- `classify_attendance` (src/app.py lines 21-62): the `try` body with
`except Exception: return "late"`. -/
def classify_attendance (r : RawRow) : String :=
  (classifyCore r).getD "late"

/-- The five attendance statuses of the data model. -/
def attendance_types : List String :=
  ["present", "outstation_present", "late", "outstation_late", "absent"]

/-- One classified record: the grouping-key columns the aggregation
stages read, plus the computed `attendance` status column. -/
structure CRow where
  userCode : String
  userName : String
  dateStr : String
  status : String
deriving DecidableEq

/-- The groupby key `(User Code, User Name)`. -/
def keyOf (r : CRow) : String × String := (r.userCode, r.userName)

/-- Strict lexicographic comparison of character lists by code point,
the comparison pandas uses when it sorts string keys. -/
def charListLt : List Char → List Char → Bool
  | [], [] => false
  | [], _ :: _ => true
  | _ :: _, [] => false
  | a :: as, b :: bs =>
    if a.toNat < b.toNat then true
    else if b.toNat < a.toNat then false
    else charListLt as bs

/-- Strict code-point order on strings. -/
def strLt (a b : String) : Prop := charListLt a.toList b.toList = true

instance : DecidableRel strLt := fun a b => by unfold strLt; infer_instance

/-- Lexicographic `<=` on groupby key tuples, the order pandas sorts
group keys in. -/
def keyLe (a b : String × String) : Prop :=
  strLt a.1 b.1 ∨ (a.1 = b.1 ∧ (strLt a.2 b.2 ∨ a.2 = b.2))

instance : DecidableRel keyLe := fun a b => by unfold keyLe; infer_instance

/-- The distinct group keys in sorted order, as pandas `groupby`
enumerates them. -/
def groupKeys (rows : List CRow) : List (String × String) :=
  ((rows.map keyOf).dedup).insertionSort keyLe

/-- Count of the employee's records carrying one given status
(`value_counts` with zero fill). -/
def statusCount (rows : List CRow) (e : String × String) (st : String) : Nat :=
  rows.countP (fun r => decide (keyOf r = e) && decide (r.status = st))

/-- Banker's rounding of a rational to an integer, the rounding used by
the float `.round(...)` in the source. -/
def roundHalfEven (q : ℚ) : ℤ :=
  if q - ⌊q⌋ < 1/2 then ⌊q⌋
  else if (1 : ℚ)/2 < q - ⌊q⌋ then ⌊q⌋ + 1
  else if Even ⌊q⌋ then ⌊q⌋ else ⌊q⌋ + 1

/-- `.round(1)`: round to one decimal place, ties to even. -/
def round1 (q : ℚ) : ℚ := (roundHalfEven (q * 10) : ℚ) / 10

/-- One `Employee_Summary` output row. -/
structure SummaryRow where
  userCode : String
  userName : String
  present : Nat
  outstationPresent : Nat
  late : Nat
  outstationLate : Nat
  absent : Nat
  totalDays : Nat
  totalPresent : Nat
  attendancePct : ℚ
deriving DecidableEq

/-- The summary row `create_employee_summary` builds for one group key:
per-status counts, their sum as `Total Days`, `Total Present`, and the
rounded attendance percentage. -/
def mkSummaryRow (rows : List CRow) (e : String × String) : SummaryRow :=
  let p := statusCount rows e "present"
  let op := statusCount rows e "outstation_present"
  let l := statusCount rows e "late"
  let ol := statusCount rows e "outstation_late"
  let ab := statusCount rows e "absent"
  { userCode := e.1, userName := e.2, present := p, outstationPresent := op,
    late := l, outstationLate := ol, absent := ab,
    totalDays := p + op + l + ol + ab, totalPresent := p + op,
    attendancePct := round1 (((p + op : Nat) : ℚ) / ((p + op + l + ol + ab : Nat) : ℚ) * 100) }

/-- `create_employee_summary` (src/app.py lines 120-151): group the
classified records by `(User Code, User Name)` and build one row of
counts per group. -/
def create_employee_summary (rows : List CRow) : List SummaryRow :=
  (groupKeys rows).map (mkSummaryRow rows)

/-- Sorted-date order used for the observed date set. -/
def dateLe (a b : String) : Prop := strLt a b ∨ a = b

instance : DecidableRel dateLe := fun a b => by unfold dateLe; infer_instance

/-- The global observed date set: the distinct dates anywhere in the
batch, in sorted order. -/
def observedDates (rows : List CRow) : List String :=
  ((rows.map (fun r => r.dateStr)).dedup).insertionSort dateLe

/-- Modelled from the spec: the absent count §4.3 prescribes for the
Summary Builder — the number of dates in the global observed date set
with no record for the employee (the Grid Builder's fill policy). -/
def specAbsentCount (rows : List CRow) (e : String × String) : Nat :=
  ((observedDates rows).filter
    (fun d => !(rows.any (fun r => decide (keyOf r = e) && decide (r.dateStr = d))))).length

/-- One input row of a dataset that has all seven required columns. -/
structure FullRow where
  userCode : String
  userName : String
  attendanceDate : String
  startDayTime : TimeCell
  startDiffMeters : MeterCell
  reasonStart : Option String
  reasonEnd : Option String
deriving DecidableEq

/-- View of a full row as the raw row the classifier reads (every
column present). -/
def rawOfFull (fr : FullRow) : RawRow :=
  { userCode := some fr.userCode, userName := some fr.userName,
    attendanceDate := some fr.attendanceDate,
    startDayTime := some fr.startDayTime,
    startDiffMeters := some fr.startDiffMeters,
    reasonStart := some fr.reasonStart, reasonEnd := some fr.reasonEnd }

/-- Source line `df['attendance'] = df.apply(classify_attendance, axis=1)`:
attach the classifier's status to every row. -/
def classifyAll (rows : List FullRow) : List CRow :=
  rows.map (fun fr =>
    { userCode := fr.userCode, userName := fr.userName,
      dateStr := fr.attendanceDate, status := classify_attendance (rawOfFull fr) })

/-- A dataset refuting C2: Alice has on-time records on both observed
dates, Bob only on the first, so the spec's fill policy gives Bob one
absent day. -/
def exRowsC2 : List FullRow :=
  [{ userCode := "A001", userName := "Alice", attendanceDate := "2024-01-01",
     startDayTime := TimeCell.valid ⟨2024, 1, 1, 9, 0, 0, 0⟩,
     startDiffMeters := MeterCell.mnum 50, reasonStart := none, reasonEnd := none },
   { userCode := "A001", userName := "Alice", attendanceDate := "2024-01-02",
     startDayTime := TimeCell.valid ⟨2024, 1, 2, 9, 0, 0, 0⟩,
     startDiffMeters := MeterCell.mnum 50, reasonStart := none, reasonEnd := none },
   { userCode := "B001", userName := "Bob", attendanceDate := "2024-01-01",
     startDayTime := TimeCell.valid ⟨2024, 1, 1, 9, 0, 0, 0⟩,
     startDiffMeters := MeterCell.mnum 50, reasonStart := none, reasonEnd := none }]

/-- `pd.cut` right-closed interval search from the source call
`pd.cut(..., bins=[0, 50, 75, 90, 100], labels=[...])`: a value in
`(lo, hi]` takes the bin's label, values outside every bin get no
label (`NaN`). -/
def cutFind (x : ℚ) : ℚ → List (ℚ × String) → Option String
  | _, [] => none
  | lo, (hi, lab) :: rest => if lo < x ∧ x ≤ hi then some lab else cutFind x hi rest

/-- The performance-category bucketing of `create_dashboard_metrics`
(src/app.py lines 196-200). -/
def performance_category (x : ℚ) : Option String :=
  cutFind x 0 [(50, "Poor (<50%)"), (75, "Average (50-75%)"), (90, "Good (75-90%)"),
    (100, "Excellent (>90%)")]

/-- The classified pandas dataframe object: its rows plus a presence
flag for the derived date display columns (`date`, `date_str`,
`day_name`, `day_number`, `date_display`) that the Grid Builder and the
Dashboard Aggregator write into it. -/
structure ClassifiedDF where
  rows : List CRow
  hasDerivedDateCols : Bool
deriving DecidableEq

/-- Cell selection of the pivot table: `aggfunc='first'` takes the first
record of the `(employee, date)` group in original input order,
`fill_value='absent'` fills empty groups. -/
def gridCell (rows : List CRow) (e : String × String) (d : String) : String :=
  match rows.find? (fun r => decide (keyOf r = e) && decide (r.dateStr = d)) with
  | some r => r.status
  | none => "absent"

/-- `create_monthly_calendar_view` (src/app.py lines 64-118): writes the
derived date columns into the input frame and returns the pivot grid —
one row per employee identity in sorted key order, one cell per observed
date. -/
def create_monthly_calendar_view (df : ClassifiedDF) :
    ClassifiedDF × List ((String × String) × List String) :=
  ({ df with hasDerivedDateCols := true },
    (groupKeys df.rows).map (fun e =>
      (e, (observedDates df.rows).map (fun d => gridCell df.rows e d))))

/-- Total present of one employee: present plus outstation_present. -/
def presentCount (rows : List CRow) (e : String × String) : Nat :=
  statusCount rows e "present" + statusCount rows e "outstation_present"

/-- The comparison behind `sort_values('Total Present', ascending=False)`. -/
def totalPresentDescending (a b : (String × String) × Nat) : Prop := b.2 ≤ a.2

instance : DecidableRel totalPresentDescending := fun a b => by
  unfold totalPresentDescending; infer_instance

/-- `create_total_present_summary` (src/app.py lines 153-178): per-key
total-present counts in groupby key order, then
`sort_values('Total Present', ascending=False)`.  The library sort is
numpy's quicksort, which guarantees only some reordering that is sorted
by the count; this executable stand-in picks a concrete sort so the
model stays runnable, and every general theorem about the ranking is
quantified over all conforming reorderings instead of relying on the
stand-in's tie order.  On two-element inputs the stand-in does coincide
with the library: numpy sorts arrays this small with insertion sort,
which leaves a tie in its incoming order. -/
def create_total_present_summary (rows : List CRow) : List ((String × String) × Nat) :=
  ((groupKeys rows).map (fun e => (e, presentCount rows e))).insertionSort
    totalPresentDescending

/-- A dataset refuting the C6 tie-break: Bob appears first in the input,
Ann second, and both have exactly one present day. -/
def exRowsC6 : List FullRow :=
  [{ userCode := "B001", userName := "Bob", attendanceDate := "2024-01-01",
     startDayTime := TimeCell.valid ⟨2024, 1, 1, 8, 30, 0, 0⟩,
     startDiffMeters := MeterCell.mnum 10, reasonStart := none, reasonEnd := none },
   { userCode := "A001", userName := "Ann", attendanceDate := "2024-01-01",
     startDayTime := TimeCell.valid ⟨2024, 1, 1, 8, 45, 0, 0⟩,
     startDiffMeters := MeterCell.mnum 10, reasonStart := none, reasonEnd := none }]

/-- The `Employee_Summary` dataframe object: its rows plus the optional
`performance_category` column the Dashboard Aggregator writes into it. -/
structure SummaryDF where
  rows : List SummaryRow
  perfCategoryCol : Option (List (Option String))
deriving DecidableEq

/-- The scalar block of the dashboard metrics dict. -/
structure DashboardMetrics where
  totalEmployees : Nat
  totalPresentDays : Nat
  totalLateDays : Nat
  totalAbsentDays : Nat
  overallAttendanceRate : ℚ
deriving DecidableEq

/-- `employee_summary['Total Days'].max()`, 0 on an empty frame. -/
def maxTotalDays (rows : List SummaryRow) : Nat :=
  (rows.map (fun s => s.totalDays)).foldr max 0

/-- The scalar metrics computed by `create_dashboard_metrics`
(src/app.py lines 184-189). -/
def dashboardScalars (rows : List SummaryRow) : DashboardMetrics :=
  { totalEmployees := rows.length,
    totalPresentDays := (rows.map (fun s => s.totalPresent)).sum,
    totalLateDays := (rows.map (fun s => s.late)).sum
      + (rows.map (fun s => s.outstationLate)).sum,
    totalAbsentDays := (rows.map (fun s => s.absent)).sum,
    overallAttendanceRate := round1
      (((rows.map (fun s => s.totalPresent)).sum : ℚ)
        / ((rows.length : ℚ) * (maxTotalDays rows : ℚ)) * 100) }

/-- `create_dashboard_metrics` (src/app.py lines 180-210): computes the
dashboard scalars, writes a derived `date` column into the classified
frame and a `performance_category` column into the summary frame it
consumed, and returns the metrics. -/
def create_dashboard_metrics (df : ClassifiedDF) (es : SummaryDF) :
    (ClassifiedDF × SummaryDF) × DashboardMetrics :=
  (({ df with hasDerivedDateCols := true },
    { es with perfCategoryCol := some (es.rows.map (fun s => performance_category s.attendancePct)) }),
    dashboardScalars es.rows)

/-- The concrete classified frame used for the C5 and C9 instances. -/
def exClassifiedC9 : ClassifiedDF :=
  { rows := classifyAll exRowsC2, hasDerivedDateCols := false }

/-- The concrete summary frame used for the C7 and C9 instances. -/
def exSummaryC9 : SummaryDF :=
  { rows := create_employee_summary (classifyAll exRowsC2), perfCategoryCol := none }

/-- A raw uploaded dataset: which of the seven required columns exist,
and the cell contents of the rows for the columns that do exist. -/
structure Dataset where
  hasUserCode : Bool
  hasUserName : Bool
  hasAttendanceDate : Bool
  hasStartDayTime : Bool
  hasStartDiffMeters : Bool
  hasReasonStart : Bool
  hasReasonEnd : Bool
  rows : List FullRow
deriving DecidableEq

/-- Row access as `classify_attendance` performs it: a missing column
turns every access into a `KeyError` (the `none` branch). -/
def getRaw (ds : Dataset) (fr : FullRow) : RawRow :=
  { userCode := if ds.hasUserCode then some fr.userCode else none,
    userName := if ds.hasUserName then some fr.userName else none,
    attendanceDate := if ds.hasAttendanceDate then some fr.attendanceDate else none,
    startDayTime := if ds.hasStartDayTime then some fr.startDayTime else none,
    startDiffMeters := if ds.hasStartDiffMeters then some fr.startDiffMeters else none,
    reasonStart := if ds.hasReasonStart then some fr.reasonStart else none,
    reasonEnd := if ds.hasReasonEnd then some fr.reasonEnd else none }

/-- The classified rows `main` computes first. -/
def classifyDataset (ds : Dataset) : List CRow :=
  ds.rows.map (fun fr =>
    { userCode := fr.userCode, userName := fr.userName,
      dateStr := fr.attendanceDate, status := classify_attendance (getRaw ds fr) })

/-- Python `str(e)` for a pandas `KeyError` on one missing column: the
repr of the key. -/
def keyErrorText (col : String) : String := "'" ++ col ++ "'"

/-- The classifier-read columns among the display selection of line 712
(`df[['User Name', 'User Code', 'Start Day Time', 'Start DiffIn Meters',
'Attendance Reason Start', 'Attendance Reason End', 'attendance']]`)
that are missing from the dataset, in selection order. -/
def missingDisplayCols (ds : Dataset) : List String :=
  (if ds.hasStartDayTime then [] else ["Start Day Time"])
    ++ (if ds.hasStartDiffMeters then [] else ["Start DiffIn Meters"])
    ++ (if ds.hasReasonStart then [] else ["Attendance Reason Start"])
    ++ (if ds.hasReasonEnd then [] else ["Attendance Reason End"])

/-- Python `str(e)` for the `KeyError` pandas raises when a column-list
selection names absent columns: the repr of the message listing them. -/
def notInIndexText (cols : List String) : String :=
  "\"[" ++ String.intercalate ", " (cols.map keyErrorText) ++ "] not in index\""

/-- The banner of line 881: `st.error(f"Error processing file: {str(e)}")`. -/
def processingError (e : String) : String := "Error processing file: " ++ e

/-- The outcome of the big `try` of `main`: the first step to touch a
missing column raises, in program order — the summary groupby (line
657) on `User Code` then `User Name`, the calendar build (line 659) on
`Attendance Date`, and finally the data-display selection (line 712) on
the four classifier-read columns; a dataset with all seven required
columns completes. -/
def processOutcome (ds : Dataset) : Except String Unit :=
  if ds.hasUserCode = false then Except.error (processingError (keyErrorText "User Code"))
  else if ds.hasUserName = false then Except.error (processingError (keyErrorText "User Name"))
  else if ds.hasAttendanceDate = false then
    Except.error (processingError (keyErrorText "Attendance Date"))
  else if missingDisplayCols ds ≠ [] then
    Except.error (processingError (notInIndexText (missingDisplayCols ds)))
  else Except.ok ()

/-- Observable trace of `main`'s `try` block (src/app.py lines
653-882): what each stage computed before any failure, and the
outcome. -/
structure ProcessTrace where
  classified : List String
  summaryOut : Option (List SummaryRow)
  rankingOut : Option (List ((String × String) × Nat))
  gridOut : Option (List ((String × String) × List String))
  metricsOut : Option DashboardMetrics
  outcome : Except String Unit

/-- The processing pipeline of `main`: classification always runs first
(the classifier's bare `except` swallows missing classifier columns row
by row); the summary (line 657) and ranking (line 658) need the groupby
key columns, the grid (line 659) and dashboard (line 660) additionally
the date column; the run's outcome is `processOutcome`, an error as
soon as any required column is missing, raised only after the stages
before it have completed. -/
def process (ds : Dataset) : ProcessTrace :=
  { classified := ds.rows.map (fun fr => classify_attendance (getRaw ds fr)),
    summaryOut := if ds.hasUserCode && ds.hasUserName then
        some (create_employee_summary (classifyDataset ds))
      else none,
    rankingOut := if ds.hasUserCode && ds.hasUserName then
        some (create_total_present_summary (classifyDataset ds))
      else none,
    gridOut := if ds.hasUserCode && ds.hasUserName && ds.hasAttendanceDate then
        some ((create_monthly_calendar_view
          { rows := classifyDataset ds, hasDerivedDateCols := false }).2)
      else none,
    metricsOut := if ds.hasUserCode && ds.hasUserName && ds.hasAttendanceDate then
        some (dashboardScalars (create_employee_summary (classifyDataset ds)))
      else none,
    outcome := processOutcome ds }

/-- The C3 counterexample dataset: all columns present except
`startDayTime`. -/
def exDatasetC3 : Dataset :=
  { hasUserCode := true, hasUserName := true, hasAttendanceDate := true,
    hasStartDayTime := false, hasStartDiffMeters := true,
    hasReasonStart := true, hasReasonEnd := true,
    rows := exRowsC2 }

/-! ## Theorems -/

theorem classify_mem_statuses (r : RawRow) :
    classify_attendance r = "present" ∨ classify_attendance r = "outstation_present" ∨
    classify_attendance r = "late" ∨ classify_attendance r = "outstation_late" := by
  unfold classify_attendance classifyCore
  rcases r.startDayTime with _ | tc
  · simp
  · rcases tc with t | _
    · rcases r.startDiffMeters with _ | mc
      · simp
      · rcases r.reasonStart with _ | rs
        · simp
        · rcases r.reasonEnd with _ | re
          · simp
          · by_cases h1 : (timeLe t (cutoffOf t) && meterBelow200 mc) = true <;>
              by_cases h2 : isOutstation rs re = true <;> simp [h1, h2]
    · simp

theorem classify_ne_absent (r : RawRow) : classify_attendance r ≠ "absent" := by
  rcases classify_mem_statuses r with h | h | h | h <;> rw [h] <;> decide

theorem classifyAll_status {rows : List FullRow} {r : CRow} (hr : r ∈ classifyAll rows) :
    r.status = "present" ∨ r.status = "outstation_present" ∨
    r.status = "late" ∨ r.status = "outstation_late" := by
  rcases List.mem_map.mp hr with ⟨fr, _, rfl⟩
  exact classify_mem_statuses (rawOfFull fr)

theorem statusCount_pos_of_mem {rows : List CRow} {r : CRow} (hr : r ∈ rows) :
    1 ≤ statusCount rows (keyOf r) r.status := by
  unfold statusCount
  have h : 0 < rows.countP
      (fun r2 => decide (keyOf r2 = keyOf r) && decide (r2.status = r.status)) :=
    List.countP_pos_iff.mpr ⟨r, hr, by simp⟩
  omega

theorem tpd_isTotal : IsTotal ((String × String) × Nat) totalPresentDescending :=
  ⟨fun a b => by unfold totalPresentDescending; omega⟩

theorem tpd_isTrans : IsTrans ((String × String) × Nat) totalPresentDescending :=
  ⟨fun a b c h1 h2 => by
    unfold totalPresentDescending at h1 h2 ⊢
    omega⟩

theorem find?_eq_head_filter {α : Type} (p : α → Bool) :
    ∀ l : List α, l.find? p = (l.filter p).head? := by
  intro l
  induction l with
  | nil => rfl
  | cons a t ih =>
    cases h : p a with
    | true =>
      rw [List.find?_cons_of_pos _ h, List.filter_cons_of_pos h]
      rfl
    | false =>
      rw [List.find?_cons_of_neg _ (by simp [h]), List.filter_cons_of_neg (by simp [h])]
      exact ih


theorem sum_map_add_nat {α : Type} (l : List α) (f g : α → Nat) :
    (l.map (fun x => f x + g x)).sum = (l.map f).sum + (l.map g).sum := by
  induction l with
  | nil => rfl
  | cons a t ih =>
    simp only [List.map_cons, List.sum_cons, ih]
    omega

theorem roundHalfEven_nonneg {q : ℚ} (h : 0 ≤ q) : 0 ≤ roundHalfEven q := by
  have hf : (0 : ℤ) ≤ ⌊q⌋ := Int.floor_nonneg.mpr h
  unfold roundHalfEven
  split_ifs <;> omega

theorem roundHalfEven_le {q : ℚ} {n : ℤ} (h : q ≤ (n : ℚ)) : roundHalfEven q ≤ n := by
  have hf : ⌊q⌋ ≤ n := by
    have h2 := Int.floor_le_floor h
    rwa [Int.floor_intCast] at h2
  have hfl : (⌊q⌋ : ℚ) ≤ q := Int.floor_le q
  unfold roundHalfEven
  split_ifs with h1 h2 h3
  · exact hf
  · have hstrict : (⌊q⌋ : ℚ) < (n : ℚ) := by linarith
    have : ⌊q⌋ < n := by exact_mod_cast hstrict
    omega
  · exact hf
  · have hge : 1/2 ≤ q - (⌊q⌋ : ℚ) := le_of_not_lt h1
    have hstrict : (⌊q⌋ : ℚ) < (n : ℚ) := by linarith
    have : ⌊q⌋ < n := by exact_mod_cast hstrict
    omega

theorem round1_nonneg {q : ℚ} (h : 0 ≤ q) : 0 ≤ round1 q := by
  have h1 : (0 : ℤ) ≤ roundHalfEven (q * 10) := roundHalfEven_nonneg (by linarith)
  have h2 : (0 : ℚ) ≤ (roundHalfEven (q * 10) : ℚ) := by exact_mod_cast h1
  unfold round1
  linarith

theorem round1_le_100 {q : ℚ} (h : q ≤ 100) : round1 q ≤ 100 := by
  have h1 : roundHalfEven (q * 10) ≤ (1000 : ℤ) := by
    apply roundHalfEven_le
    push_cast
    linarith
  have h2 : (roundHalfEven (q * 10) : ℚ) ≤ 1000 := by exact_mod_cast h1
  unfold round1
  linarith

/-- Claim C1: for a record whose `startDayTime` parses to a timestamp at
or before the same calendar day's 09:15:00 cutoff and whose meter cell
resolves to a numeric value strictly below 200, `classify_attendance`
returns `outstation_present` exactly when either reason contains the
token "outstation" case-insensitively and `present` otherwise; for every
other record that parses without error it returns `outstation_late` when
the token is present and `late` otherwise. -/
theorem classify_attendance_rule (r : RawRow) (t : Timestamp) (mc : MeterCell)
    (rs re : Option String)
    (htime : r.startDayTime = some (TimeCell.valid t))
    (hmeter : r.startDiffMeters = some mc)
    (hrs : r.reasonStart = some rs)
    (hre : r.reasonEnd = some re) :
    ((∀ q : ℚ, resolveMeter mc = some q → q < 200 → timeLe t (cutoffOf t) = true →
        classify_attendance r =
          (if isOutstation rs re then "outstation_present" else "present"))
      ∧ ((¬ ∃ q : ℚ, resolveMeter mc = some q ∧ q < 200 ∧ timeLe t (cutoffOf t) = true) →
        classify_attendance r =
          (if isOutstation rs re then "outstation_late" else "late"))) := by
  constructor
  · intro q hq hlt hle
    have hmb : meterBelow200 mc = true := by
      unfold meterBelow200
      rw [hq]
      simpa using hlt
    unfold classify_attendance classifyCore
    rw [htime, hmeter, hrs, hre]
    by_cases h2 : isOutstation rs re = true <;> simp [hle, hmb, h2]
  · intro hno
    have hcond : (timeLe t (cutoffOf t) && meterBelow200 mc) = false := by
      by_cases hle : timeLe t (cutoffOf t) = true
      · have hmb : meterBelow200 mc = false := by
          unfold meterBelow200
          cases hq : resolveMeter mc with
          | none => rfl
          | some q =>
            by_cases hlt : q < 200
            · exact absurd ⟨q, hq, hlt, hle⟩ hno
            · simpa using hlt
        simp [hmb]
      · simp [Bool.not_eq_true] at hle
        simp [hle]
    unfold classify_attendance classifyCore
    rw [htime, hmeter, hrs, hre]
    by_cases h2 : isOutstation rs re = true <;> simp [hcond, h2]

/-- Witness for C1 at a concrete input: an on-time nearby record with no
outstation reason is `present`. -/
theorem classify_attendance_rule_witness :
    classify_attendance
        { userCode := some "E1", userName := some "A", attendanceDate := some "2024-01-01",
          startDayTime := some (TimeCell.valid ⟨2024, 1, 1, 9, 0, 0, 0⟩),
          startDiffMeters := some (MeterCell.mnum 50),
          reasonStart := some none, reasonEnd := some none } = "present" := by
  have h := classify_attendance_rule
    { userCode := some "E1", userName := some "A", attendanceDate := some "2024-01-01",
      startDayTime := some (TimeCell.valid ⟨2024, 1, 1, 9, 0, 0, 0⟩),
      startDiffMeters := some (MeterCell.mnum 50),
      reasonStart := some none, reasonEnd := some none }
    ⟨2024, 1, 1, 9, 0, 0, 0⟩ (MeterCell.mnum 50) none none rfl rfl rfl rfl
  have h1 := h.1 50 rfl (by norm_num) (by decide)
  simpa using h1

/-- Counterexample to C2: `create_employee_summary` reports an absent
count of 0 for Bob, while the count of globally observed dates with no
record for Bob — the value the claim says the column holds — is 1. -/
theorem create_employee_summary_absent_cex :
    ((create_employee_summary (classifyAll exRowsC2)).map (fun s => (s.userCode, s.absent)))
        = [("A001", 0), ("B001", 0)]
      ∧ specAbsentCount (classifyAll exRowsC2) ("B001", "Bob") = 1 := by
  constructor
  · rfl
  · rfl

/-- Claim C2 (amended): the EmployeeSummary absent column counts the
employee's records whose status is the literal `absent`; since the
classifier never produces `absent`, every summary row built from
classified input has absent count 0 — dates missing for the employee
are not counted by this component. -/
theorem create_employee_summary_absent_amended (rows : List FullRow) :
    ∀ s ∈ create_employee_summary (classifyAll rows), s.absent = 0 := by
  intro s hs
  unfold create_employee_summary at hs
  rcases List.mem_map.mp hs with ⟨e, _, rfl⟩
  show statusCount (classifyAll rows) e "absent" = 0
  unfold statusCount
  rw [List.countP_eq_zero]
  intro r hr
  rcases List.mem_map.mp hr with ⟨fr, _, rfl⟩
  simpa using fun _ => classify_ne_absent (rawOfFull fr)

/-- Witness for the amended C2 at the concrete counterexample dataset. -/
theorem create_employee_summary_absent_amended_witness :
    (mkSummaryRow (classifyAll exRowsC2) ("A001", "Alice")).absent = 0 :=
  create_employee_summary_absent_amended exRowsC2 _
    (List.mem_map.mpr ⟨("A001", "Alice"), by decide, rfl⟩)

/-- Counterexample to C3: a dataset missing the required `startDayTime`
column is not rejected before classification — every record is
classified (defaulting to `late`) and the summary and dashboard
aggregates are computed, and rendered, before the failure surfaces at
the data-display selection of line 712. -/
theorem process_missing_column_cex :
    (process exDatasetC3).classified = ["late", "late", "late"]
      ∧ (process exDatasetC3).summaryOut.isSome = true
      ∧ (process exDatasetC3).metricsOut.isSome = true := by
  refine ⟨rfl, rfl, rfl⟩

/-- Claim C3 (amended): a dataset missing any required column does make
the run fail with a descriptive error naming the missing column(s) —
the line-881 banner wrapped around the `KeyError` text — but the
rejection is not upfront: classification always runs first (a missing
startDayTime column makes every record late), a missing groupby or date
column aborts only after classification, and when only classifier-read
columns are missing every aggregate is still produced before the
data-display step fails. -/
theorem process_error_behaviour (ds : Dataset) :
    ((process ds).outcome.isOk
      = (ds.hasUserCode && ds.hasUserName && ds.hasAttendanceDate && ds.hasStartDayTime
          && ds.hasStartDiffMeters && ds.hasReasonStart && ds.hasReasonEnd))
    ∧ ((process ds).classified = ds.rows.map (fun fr => classify_attendance (getRaw ds fr)))
    ∧ (ds.hasStartDayTime = false → (process ds).classified = ds.rows.map (fun _ => "late"))
    ∧ (ds.hasUserCode = false →
        (process ds).outcome = Except.error (processingError (keyErrorText "User Code")))
    ∧ (ds.hasUserCode = true → ds.hasUserName = false →
        (process ds).outcome = Except.error (processingError (keyErrorText "User Name")))
    ∧ (ds.hasUserCode = true → ds.hasUserName = true → ds.hasAttendanceDate = false →
        (process ds).outcome = Except.error (processingError (keyErrorText "Attendance Date")))
    ∧ (ds.hasUserCode = true → ds.hasUserName = true → ds.hasAttendanceDate = true →
        missingDisplayCols ds ≠ [] →
        ((process ds).summaryOut.isSome = true ∧ (process ds).metricsOut.isSome = true
          ∧ (process ds).outcome
            = Except.error (processingError (notInIndexText (missingDisplayCols ds))))) := by
  refine ⟨?_, rfl, ?_, ?_, ?_, ?_, ?_⟩
  · cases h1 : ds.hasUserCode <;> cases h2 : ds.hasUserName <;>
      cases h3 : ds.hasAttendanceDate <;> cases h4 : ds.hasStartDayTime <;>
      cases h5 : ds.hasStartDiffMeters <;> cases h6 : ds.hasReasonStart <;>
      cases h7 : ds.hasReasonEnd <;>
      simp [process, processOutcome, missingDisplayCols, h1, h2, h3, h4, h5, h6, h7,
        Except.isOk, Except.toBool]
  · intro h
    simp only [process]
    apply List.map_congr_left
    intro fr _
    simp [classify_attendance, classifyCore, getRaw, h]
  · intro h1
    simp [process, processOutcome, h1]
  · intro h1 h2
    simp [process, processOutcome, h1, h2]
  · intro h1 h2 h3
    simp [process, processOutcome, h1, h2, h3]
  · intro h1 h2 h3 h4
    refine ⟨by simp [process, h1, h2, h3], by simp [process, h1, h2, h3], ?_⟩
    simp [process, processOutcome, h1, h2, h3, h4]

/-- Witness for the amended C3: on the concrete dataset missing only
the startDayTime column, the aggregates are produced and the run ends
with the error naming the missing column. -/
theorem process_error_behaviour_witness :
    (process exDatasetC3).summaryOut.isSome = true
      ∧ (process exDatasetC3).outcome
          = Except.error (processingError (notInIndexText ["Start Day Time"])) := by
  have h := (process_error_behaviour exDatasetC3).2.2.2.2.2.2 rfl rfl rfl (by decide)
  exact ⟨h.1, h.2.2⟩

/-- Claim C4: `classify_attendance` is total — every record, including
those with an unparsable `startDayTime`, an unresolvable meter cell or
missing fields, gets one of the four classifier statuses; whenever the
`try` body fails it returns `late`, and in particular an unparsable or
missing `startDayTime` always yields `late`. -/
theorem classify_attendance_total (r : RawRow) :
    (classify_attendance r = "present" ∨ classify_attendance r = "outstation_present" ∨
      classify_attendance r = "late" ∨ classify_attendance r = "outstation_late")
    ∧ (classifyCore r = none → classify_attendance r = "late")
    ∧ (r.startDayTime = some TimeCell.invalid → classify_attendance r = "late")
    ∧ (r.startDayTime = none → classify_attendance r = "late") := by
  refine ⟨classify_mem_statuses r, ?_, ?_, ?_⟩
  · intro h
    unfold classify_attendance
    rw [h]
    rfl
  · intro h
    unfold classify_attendance classifyCore
    rw [h]
    rfl
  · intro h
    unfold classify_attendance classifyCore
    rw [h]
    rfl

/-- Witness for C4: a record whose `startDayTime` cell does not parse is
classified `late`. -/
theorem classify_attendance_total_witness :
    classify_attendance
        { userCode := some "E1", userName := some "A", attendanceDate := some "2024-01-01",
          startDayTime := some TimeCell.invalid,
          startDiffMeters := some (MeterCell.mnum 50),
          reasonStart := some none, reasonEnd := some none } = "late" :=
  (classify_attendance_total
    { userCode := some "E1", userName := some "A", attendanceDate := some "2024-01-01",
      startDayTime := some TimeCell.invalid,
      startDiffMeters := some (MeterCell.mnum 50),
      reasonStart := some none, reasonEnd := some none }).2.2.1 rfl

/-- Claim C5: for every employee identity appearing in the input the
grid has exactly one row, that row has one cell per observed date, a
cell over a date with records holds the status of the first matching
record in original input order, and a cell over a date with no matching
record holds `absent`. -/
theorem create_monthly_calendar_view_grid (df : ClassifiedDF) (e : String × String)
    (he : e ∈ df.rows.map keyOf) :
    ∃ cells,
      ((e, cells) ∈ (create_monthly_calendar_view df).2
        ∧ (∀ cells2, (e, cells2) ∈ (create_monthly_calendar_view df).2 → cells2 = cells)
        ∧ cells.length = (observedDates df.rows).length
        ∧ ∀ i, i < (observedDates df.rows).length →
            cells.getD i "absent" =
              (match (df.rows.filter (fun r => decide (keyOf r = e)
                  && decide (r.dateStr = (observedDates df.rows).getD i ""))).head? with
               | some r => r.status
               | none => "absent")) := by
  have he2 : e ∈ groupKeys df.rows := by
    unfold groupKeys
    rw [List.mem_insertionSort]
    exact List.mem_dedup.mpr he
  refine ⟨(observedDates df.rows).map (gridCell df.rows e), ?_, ?_, ?_, ?_⟩
  · exact List.mem_map.mpr ⟨e, he2, rfl⟩
  · intro cells2 h2
    rcases List.mem_map.mp h2 with ⟨e2, _, heq⟩
    rw [Prod.mk.injEq] at heq
    obtain ⟨rfl, h4⟩ := heq
    exact h4.symm
  · simp
  · intro i hi
    have hlen : i < ((observedDates df.rows).map (gridCell df.rows e)).length := by
      simpa using hi
    rw [List.getD_eq_getElem _ _ hlen, List.getD_eq_getElem _ _ hi, List.getElem_map]
    unfold gridCell
    rw [find?_eq_head_filter]

/-- Witness for C5: the concrete grid contains a row for Alice. -/
theorem create_monthly_calendar_view_grid_witness :
    ∃ cells, (("A001", "Alice"), cells) ∈ (create_monthly_calendar_view exClassifiedC9).2 := by
  obtain ⟨cells, hmem, -, -, -⟩ :=
    create_monthly_calendar_view_grid exClassifiedC9 ("A001", "Alice") (by decide)
  exact ⟨cells, hmem⟩

/-- Counterexample to C6: Bob appears before Ann in the input and both
have total present 1, yet the ranking lists Ann first — the groupby has
already reordered the rows lexicographically before the sort, and on a
two-element tie numpy's small-array insertion sort (matched by the
stand-in) keeps that order, refuting the claimed first-appearance tie
order. -/
theorem create_total_present_summary_cex :
    create_total_present_summary (classifyAll exRowsC6)
        = [(("A001", "Ann"), 1), (("B001", "Bob"), 1)]
      ∧ (classifyAll exRowsC6).map keyOf = [("B001", "Bob"), ("A001", "Ann")] := by
  constructor
  · rfl
  · rfl

/-- Claim C6 (amended): the ranking pairs one entry per employee
identity of the input with that employee's count of present plus
outstation_present records, and is sorted by totalPresent descending.
These properties hold for every reordering `sort_values` may return —
the theorem is quantified over all permutations of the per-employee
rows that are sorted by the count — because its unstable quicksort
guarantees nothing about the order of ties; in particular the claimed
first-appearance tie order is not guaranteed, and on the counterexample
the observed tie order is the lexicographic groupby key order
instead. -/
theorem create_total_present_summary_spec (rows : List CRow)
    (out : List ((String × String) × Nat))
    (hperm : out ~ (groupKeys rows).map (fun e => (e, presentCount rows e)))
    (hsort : out.Pairwise totalPresentDescending) :
    ((out.map Prod.fst).Nodup)
    ∧ (∀ e, (e ∈ out.map Prod.fst) ↔ e ∈ rows.map keyOf)
    ∧ (∀ p ∈ out, p.2 = presentCount rows p.1)
    ∧ (out.Pairwise (fun a b => b.2 ≤ a.2)) := by
  have hgknd : (groupKeys rows).Nodup := by
    have hperm2 := List.perm_insertionSort keyLe ((rows.map keyOf).dedup)
    exact hperm2.nodup_iff.mpr (List.nodup_dedup _)
  have hmapfst : ((groupKeys rows).map (fun e => (e, presentCount rows e))).map Prod.fst
      = groupKeys rows := by
    rw [List.map_map]
    exact List.map_id' _
  have hfstperm : out.map Prod.fst ~ groupKeys rows :=
    hmapfst ▸ hperm.map Prod.fst
  refine ⟨?_, ?_, ?_, ?_⟩
  · exact hfstperm.nodup_iff.mpr hgknd
  · intro e
    rw [hfstperm.mem_iff]
    unfold groupKeys
    rw [List.mem_insertionSort, List.mem_dedup]
  · intro p hp
    have hp2 : p ∈ (groupKeys rows).map (fun e => (e, presentCount rows e)) :=
      hperm.mem_iff.mp hp
    rcases List.mem_map.mp hp2 with ⟨e, _, rfl⟩
    rfl
  · exact hsort.imp (fun h => h)

/-- Witness for the amended C6: the stand-in's output is itself a
conforming reordering, and Ann's entry in it carries her present
count. -/
theorem create_total_present_summary_spec_witness :
    ((("A001", "Ann"), 1) : (String × String) × Nat).2
      = presentCount (classifyAll exRowsC6) (("A001", "Ann"), 1).1 := by
  have h := create_total_present_summary_spec (classifyAll exRowsC6)
    (create_total_present_summary (classifyAll exRowsC6))
    (List.perm_insertionSort totalPresentDescending _)
    (by
      haveI := tpd_isTotal
      haveI := tpd_isTrans
      exact List.sorted_insertionSort totalPresentDescending _)
  exact h.2.2.1 _ (by decide)

/-- Claim C7: on a non-empty summary the Dashboard Aggregator returns
the row count, the sum of totalPresent, the sum of late plus
outstation_late, the sum of absent, and the rate rounded to one decimal
of totalPresentDays over (totalEmployees times the maximum totalDays),
times 100. -/
theorem create_dashboard_metrics_values (df : ClassifiedDF) (es : SummaryDF)
    (_h : es.rows ≠ []) :
    ((create_dashboard_metrics df es).2.totalEmployees = es.rows.length)
    ∧ ((create_dashboard_metrics df es).2.totalPresentDays
        = (es.rows.map (fun s => s.totalPresent)).sum)
    ∧ ((create_dashboard_metrics df es).2.totalLateDays
        = (es.rows.map (fun s => s.late + s.outstationLate)).sum)
    ∧ ((create_dashboard_metrics df es).2.totalAbsentDays
        = (es.rows.map (fun s => s.absent)).sum)
    ∧ ((create_dashboard_metrics df es).2.overallAttendanceRate =
        round1 ((((es.rows.map (fun s => s.totalPresent)).sum : ℚ)
          / ((es.rows.length : ℚ)
              * (((es.rows.map (fun s => s.totalDays)).foldr max 0 : Nat) : ℚ))) * 100)) := by
  refine ⟨rfl, rfl, ?_, rfl, ?_⟩
  · show (es.rows.map (fun s => s.late)).sum + (es.rows.map (fun s => s.outstationLate)).sum
      = (es.rows.map (fun s => s.late + s.outstationLate)).sum
    rw [sum_map_add_nat]
  · rfl

/-- Witness for C7: the aggregated employee count on the concrete
summary frame. -/
theorem create_dashboard_metrics_values_witness :
    (create_dashboard_metrics exClassifiedC9 exSummaryC9).2.totalEmployees
      = exSummaryC9.rows.length :=
  (create_dashboard_metrics_values exClassifiedC9 exSummaryC9 (by decide)).1

/-- Claim C8: the performance category buckets the attendance percent
into Poor on (0,50], Average on (50,75], Good on (75,90] and Excellent
on (90,100] — open at the low end, closed at the high end — and a
percent of exactly 0 falls into no category. -/
theorem performance_category_buckets (p : ℚ) :
    (0 < p ∧ p ≤ 50 → performance_category p = some "Poor (<50%)")
    ∧ (50 < p ∧ p ≤ 75 → performance_category p = some "Average (50-75%)")
    ∧ (75 < p ∧ p ≤ 90 → performance_category p = some "Good (75-90%)")
    ∧ (90 < p ∧ p ≤ 100 → performance_category p = some "Excellent (>90%)")
    ∧ performance_category 0 = none := by
  refine ⟨?_, ?_, ?_, ?_, by decide⟩
  · rintro ⟨h1, h2⟩
    simp only [performance_category, cutFind]
    rw [if_pos ⟨h1, h2⟩]
  · rintro ⟨h1, h2⟩
    simp only [performance_category, cutFind]
    rw [if_neg (by rintro ⟨-, h⟩; linarith), if_pos ⟨h1, h2⟩]
  · rintro ⟨h1, h2⟩
    simp only [performance_category, cutFind]
    rw [if_neg (by rintro ⟨-, h⟩; linarith), if_neg (by rintro ⟨-, h⟩; linarith),
      if_pos ⟨h1, h2⟩]
  · rintro ⟨h1, h2⟩
    simp only [performance_category, cutFind]
    rw [if_neg (by rintro ⟨-, h⟩; linarith), if_neg (by rintro ⟨-, h⟩; linarith),
      if_neg (by rintro ⟨-, h⟩; linarith), if_pos ⟨h1, h2⟩]

/-- Witness for C8: concrete percents land in the stated buckets and 0
is uncategorised. -/
theorem performance_category_buckets_witness :
    performance_category 40 = some "Poor (<50%)"
      ∧ performance_category 60 = some "Average (50-75%)"
      ∧ performance_category 80 = some "Good (75-90%)"
      ∧ performance_category 95 = some "Excellent (>90%)"
      ∧ performance_category 0 = none :=
  ⟨(performance_category_buckets 40).1 (by norm_num),
   (performance_category_buckets 60).2.1 (by norm_num),
   (performance_category_buckets 80).2.2.1 (by norm_num),
   (performance_category_buckets 95).2.2.2.1 (by norm_num),
   (performance_category_buckets 0).2.2.2.2⟩

/-- Counterexample to C9: the Dashboard Aggregator hands back the
summary frame with a new `performance_category` column and the Grid
Builder hands back the classified frame with new derived date columns —
both consumed entities are changed, not left untouched. -/
theorem no_mutation_cex :
    ((create_dashboard_metrics exClassifiedC9 exSummaryC9).1.2 ≠ exSummaryC9)
    ∧ ((create_monthly_calendar_view exClassifiedC9).1 ≠ exClassifiedC9) := by
  constructor
  · intro h
    have h2 := congrArg SummaryDF.perfCategoryCol h
    simp [create_dashboard_metrics, exSummaryC9] at h2
  · intro h
    have h2 := congrArg ClassifiedDF.hasDerivedDateCols h
    simp [create_monthly_calendar_view, exClassifiedC9] at h2

/-- Claim C9 (amended): the Dashboard Aggregator and the Grid Builder
leave the row values of the frames they consume unchanged, but they do
mutate the consumed frame objects — the aggregator writes a
performance_category column into the summary frame and a derived date
column into the classified frame, and the grid builder writes derived
date columns into the classified frame. -/
theorem components_mutate_frames (df : ClassifiedDF) (es : SummaryDF) :
    ((create_dashboard_metrics df es).1.2.rows = es.rows)
    ∧ ((create_dashboard_metrics df es).1.2.perfCategoryCol =
        some (es.rows.map (fun s => performance_category s.attendancePct)))
    ∧ ((create_dashboard_metrics df es).1.1.rows = df.rows)
    ∧ ((create_dashboard_metrics df es).1.1.hasDerivedDateCols = true)
    ∧ ((create_monthly_calendar_view df).1.rows = df.rows)
    ∧ ((create_monthly_calendar_view df).1.hasDerivedDateCols = true) :=
  ⟨rfl, rfl, rfl, rfl, rfl, rfl⟩

/-- Claim C10: every summary row built from a classified dataset covers
at least one record, so its totalDays is at least 1, its attendance
percent is computed without dividing by zero, and the rounded percent
lies in [0, 100]. -/
theorem create_employee_summary_safety (rows : List FullRow) :
    ∀ s ∈ create_employee_summary (classifyAll rows),
      1 ≤ s.totalDays ∧ 0 ≤ s.attendancePct ∧ s.attendancePct ≤ 100 := by
  intro s hs
  unfold create_employee_summary at hs
  rcases List.mem_map.mp hs with ⟨e, he, rfl⟩
  have he2 : e ∈ (classifyAll rows).map keyOf := by
    unfold groupKeys at he
    rw [List.mem_insertionSort] at he
    exact List.mem_dedup.mp he
  rcases List.mem_map.mp he2 with ⟨cr, hcr, hkey⟩
  have hcnt : 1 ≤ statusCount (classifyAll rows) e cr.status := by
    have h := statusCount_pos_of_mem hcr
    rwa [hkey] at h
  have htd : 1 ≤ statusCount (classifyAll rows) e "present"
      + statusCount (classifyAll rows) e "outstation_present"
      + statusCount (classifyAll rows) e "late"
      + statusCount (classifyAll rows) e "outstation_late"
      + statusCount (classifyAll rows) e "absent" := by
    rcases classifyAll_status hcr with h | h | h | h <;> rw [h] at hcnt <;> omega
  refine ⟨htd, ?_, ?_⟩ <;>
    simp only [mkSummaryRow]
  · apply round1_nonneg
    positivity
  · apply round1_le_100
    have hd : (0 : ℚ) < ((statusCount (classifyAll rows) e "present"
        + statusCount (classifyAll rows) e "outstation_present"
        + statusCount (classifyAll rows) e "late"
        + statusCount (classifyAll rows) e "outstation_late"
        + statusCount (classifyAll rows) e "absent" : Nat) : ℚ) := by
      exact_mod_cast Nat.lt_of_lt_of_le Nat.zero_lt_one htd
    have hle : ((statusCount (classifyAll rows) e "present"
        + statusCount (classifyAll rows) e "outstation_present" : Nat) : ℚ)
        ≤ ((statusCount (classifyAll rows) e "present"
        + statusCount (classifyAll rows) e "outstation_present"
        + statusCount (classifyAll rows) e "late"
        + statusCount (classifyAll rows) e "outstation_late"
        + statusCount (classifyAll rows) e "absent" : Nat) : ℚ) := by
      exact_mod_cast (by omega :
        statusCount (classifyAll rows) e "present"
          + statusCount (classifyAll rows) e "outstation_present"
          ≤ statusCount (classifyAll rows) e "present"
          + statusCount (classifyAll rows) e "outstation_present"
          + statusCount (classifyAll rows) e "late"
          + statusCount (classifyAll rows) e "outstation_late"
          + statusCount (classifyAll rows) e "absent")
    rw [div_mul_eq_mul_div, div_le_iff₀ hd]
    linarith

/-- Witness for C10 at the concrete counterexample dataset: Bob's row
covers his one record. -/
theorem create_employee_summary_safety_witness :
    1 ≤ (mkSummaryRow (classifyAll exRowsC2) ("B001", "Bob")).totalDays :=
  (create_employee_summary_safety exRowsC2 _
    (List.mem_map.mpr ⟨("B001", "Bob"), by decide, rfl⟩)).1

end AttendanceApp
